import Mathlib

/-!
Verification of `gentopia/tools/read_pdf.py` (class `PDFReaderTool`).

The tool is a thin adapter around two external collaborators:
  * a PDF parser (PyPDF2), which given a file either yields an ordered list of
    per-page texts or raises an exception carrying a message, and
  * a summarization backend (a transformers pipeline), which given a chunk of
    text and length bounds either yields one summary string or raises.

We model text as `List Char` (Python strings), and the two collaborators as
explicit function arguments: the file system / parser as a map from paths to
`Except message pages`, and the backend as a map from (chunk, max_length,
min_length) to `Except message summary`.  An `Except.error e` models a raised
Python exception whose `str(e)` is `e`.  A backend that failed to initialize
(`self._summarizer is None`, or the attribute missing) is modelled as
`Option.none` at the call sites that check for it.
-/

set_option autoImplicit false

/-- A file path (opaque to the tool). -/
abbrev PDFPath := String

/-- The external PDF parser: for each path, either the ordered list of per-page
texts (`page.extract_text()` for each page of `PyPDF2.PdfReader`), or the
message of the exception raised while opening/parsing. -/
abbrev PDFParser := PDFPath → Except (List Char) (List (List Char))

/-- The external summarization backend (`self._summarizer`): given a text chunk
and the `max_length`/`min_length` bounds, either the summary string
(`[0]['summary_text']` of the pipeline result) or the message of the exception
raised during inference.  (`do_sample=False` is a fixed constant in the call
and carries no information in the model.) -/
abbrev Summarizer := List Char → Nat → Nat → Except (List Char) (List Char)

/-- `PDFReaderTool.read_pdf`: opens the file, concatenates the per-page texts
in document order with no separator (`text = ''` then `text +=
page.extract_text()`), and on any exception returns the string
`"Error reading PDF file: " + str(e)` instead of raising. -/
def read_pdf (parser : PDFParser) (file_path : PDFPath) : List Char :=
  match parser file_path with
  | .ok pages => pages.flatten
  | .error e => "Error reading PDF file: ".toList ++ e

/-- Python's `range(0, stop, step)` for `step > 0`: the indices
`0, step, 2*step, ...` strictly below `stop`. -/
def rangeStep (stop step : Nat) : List Nat :=
  (List.range ((stop + step - 1) / step)).map (fun k => k * step)

/-- The chunking step of `PDFReaderTool.summarize_pdf`:
`[text[i:i+chunk_size] for i in range(0, len(text), chunk_size)]`.
In the source `chunk_size` is the local constant `max_chunk_size = 1000`;
the slice size is kept as a parameter here so that the chunking step can be
stated for arbitrary sizes, and `summarize_pdf` below instantiates it at
`1000` exactly as the source does. -/
def text_chunks (text : List Char) (chunk_size : Nat) : List (List Char) :=
  (rangeStep text.length chunk_size).map (fun i => (text.drop i).take chunk_size)

/-- The summarization loop of `summarize_pdf`: for each chunk in order invoke
the backend; the first exception aborts the loop and propagates to the
enclosing `try`. -/
def summarize_chunks (summarizer : Summarizer) (chunks : List (List Char))
    (max_length min_length : Nat) : Except (List Char) (List (List Char)) :=
  chunks.mapM (fun chunk => summarizer chunk max_length min_length)

/-- `PDFReaderTool.summarize_pdf(file_path, max_length=200, min_length=50)`:
if the summarizer attribute is missing or `None`, return the fixed string;
otherwise extract the text with `read_pdf` (which itself never raises), split
it into chunks of the constant `max_chunk_size = 1000`, summarize each chunk,
join the per-chunk summaries with `' '.join(...)`, and turn any exception
raised inside the `try` block (only backend calls can raise) into
`"Error summarizing PDF file: " + str(e)`. -/
def summarize_pdf (summarizer : Option Summarizer) (parser : PDFParser)
    (file_path : PDFPath) (max_length : Nat := 200) (min_length : Nat := 50) :
    List Char :=
  match summarizer with
  | none => "Summarization model is not loaded.".toList
  | some s =>
    let text := read_pdf parser file_path
    let chunks := text_chunks text 1000
    match summarize_chunks s chunks max_length min_length with
    | .ok summaries => List.intercalate [' '] summaries
    | .error e => "Error summarizing PDF file: ".toList ++ e

/-- Python truthiness of an optional string argument: `None` and `''` are
falsy, every other string is truthy. -/
def strTruthy : Option String → Bool
  | none => false
  | some s => !(s = "")

/-- `PDFReaderTool._run(file_path=None, **kwargs)`: if `file_path` is falsy
fall back to `kwargs.get('__arg1')`; if that is still falsy return the fixed
error string; otherwise return `read_pdf(file_path)`.  `arg1` models
`kwargs.get('__arg1')`. -/
def _run (parser : PDFParser) (file_path : Option String)
    (arg1 : Option String) : List Char :=
  let fp := if strTruthy file_path then file_path else arg1
  if strTruthy fp then read_pdf parser (fp.getD "")
  else "Error: No file path provided.".toList

/-- `PDFReaderTool._arun(file_path)`: directly calls
`self.summarize_pdf(file_path)` with the default length bounds. -/
def _arun (summarizer : Option Summarizer) (parser : PDFParser)
    (file_path : PDFPath) : List Char :=
  summarize_pdf summarizer parser file_path

/-!
### Basic properties of the chunking step
-/

theorem text_chunks_length (text : List Char) (C : Nat) :
    (text_chunks text C).length = (text.length + C - 1) / C := by
  simp [text_chunks, rangeStep]

theorem text_chunks_nil (C : Nat) : text_chunks [] C = [] := by
  have h : (C - 1) / C = 0 := by
    cases C with
    | zero => simp
    | succ c => exact Nat.div_eq_of_lt (by omega)
  simp [text_chunks, rangeStep, h]

/-- Chunk-count recurrence: for a nonempty text, the chunk count of the text
is one more than the chunk count of the text with its first `C` characters
removed. -/
theorem chunkCount_succ (L C : Nat) (hL : 0 < L) (hC : 0 < C) :
    (L + C - 1) / C = (L - C + C - 1) / C + 1 := by
  rcases le_or_lt L C with h | h
  · have h1 : L + C - 1 = (L - 1) + C := by omega
    have h2 : L - C = 0 := by omega
    rw [h1, Nat.add_div_right _ hC, Nat.div_eq_of_lt (by omega), h2,
      Nat.div_eq_of_lt (by omega)]
  · have h1 : L + C - 1 = (L - 1) + C := by omega
    have h2 : L - C + C - 1 = (L - C - 1) + C := by omega
    have h3 : L - C - 1 + C = L - 1 := by omega
    rw [h1, Nat.add_div_right _ hC, h2, Nat.add_div_right _ hC, ← h3,
      Nat.add_div_right _ hC]

/-- Unfolding of the chunking comprehension on a nonempty text: the first
chunk is the first `C` characters and the remaining chunks are the chunks of
the rest. -/
theorem text_chunks_cons (text : List Char) (C : Nat) (hC : 0 < C)
    (h : text ≠ []) :
    text_chunks text C = text.take C :: text_chunks (text.drop C) C := by
  have hL : 0 < text.length := List.length_pos.mpr h
  unfold text_chunks rangeStep
  rw [List.map_map, List.map_map]
  rw [List.length_drop, chunkCount_succ text.length C hL hC,
    List.range_succ_eq_map]
  rw [List.map_cons, List.map_map]
  congr 1
  · show (text.drop (0 * C)).take C = text.take C
    simp
  · apply List.map_congr_left
    intro k _
    show (text.drop (Nat.succ k * C)).take C = ((text.drop C).drop (k * C)).take C
    rw [List.drop_drop, Nat.succ_mul, Nat.add_comm (k * C) C]

/-- Concatenating the chunks in order, with no separator, reproduces the
original text: chunking is lossless and non-overlapping. -/
theorem text_chunks_flatten (C : Nat) (hC : 0 < C) (text : List Char) :
    (text_chunks text C).flatten = text := by
  suffices h : ∀ (n : Nat) (t : List Char), t.length ≤ n →
      (text_chunks t C).flatten = t from h text.length text le_rfl
  intro n
  induction n with
  | zero =>
    intro t ht
    rw [List.eq_nil_of_length_eq_zero (Nat.le_zero.mp ht), text_chunks_nil]
    rfl
  | succ n ih =>
    intro t ht
    by_cases h0 : t = []
    · rw [h0, text_chunks_nil]; rfl
    · have hl : 0 < t.length := List.length_pos.mpr h0
      rw [text_chunks_cons t C hC h0, List.flatten_cons,
        ih (t.drop C) (by rw [List.length_drop]; omega)]
      exact List.take_append_drop C t

/-- Every chunk except possibly the last has length exactly `C`. -/
theorem text_chunks_dropLast_length (C : Nat) (hC : 0 < C) (text : List Char) :
    ∀ c ∈ (text_chunks text C).dropLast, c.length = C := by
  suffices h : ∀ (n : Nat) (t : List Char), t.length ≤ n →
      ∀ c ∈ (text_chunks t C).dropLast, c.length = C from h text.length text le_rfl
  intro n
  induction n with
  | zero =>
    intro t ht c hc
    rw [List.eq_nil_of_length_eq_zero (Nat.le_zero.mp ht), text_chunks_nil] at hc
    simp at hc
  | succ n ih =>
    intro t ht c hc
    by_cases h0 : t = []
    · rw [h0, text_chunks_nil] at hc
      simp at hc
    · have hl : 0 < t.length := List.length_pos.mpr h0
      rw [text_chunks_cons t C hC h0] at hc
      by_cases h1 : text_chunks (t.drop C) C = []
      · rw [h1] at hc
        simp at hc
      · rw [List.dropLast_cons_of_ne_nil h1] at hc
        rcases List.mem_cons.mp hc with hc | hc
        · have hlen : C ≤ t.length := by
            by_contra hcon
            push_neg at hcon
            rw [List.drop_eq_nil_of_le (le_of_lt hcon), text_chunks_nil] at h1
            exact h1 rfl
          rw [hc, List.length_take]
          omega
        · exact ih (t.drop C) (by rw [List.length_drop]; omega) c hc

/-- Every chunk is nonempty and has length at most `C`. -/
theorem text_chunks_mem_length (C : Nat) (hC : 0 < C) (text : List Char) :
    ∀ c ∈ text_chunks text C, 0 < c.length ∧ c.length ≤ C := by
  suffices h : ∀ (n : Nat) (t : List Char), t.length ≤ n →
      ∀ c ∈ text_chunks t C, 0 < c.length ∧ c.length ≤ C from
    h text.length text le_rfl
  intro n
  induction n with
  | zero =>
    intro t ht c hc
    rw [List.eq_nil_of_length_eq_zero (Nat.le_zero.mp ht), text_chunks_nil] at hc
    simp at hc
  | succ n ih =>
    intro t ht c hc
    by_cases h0 : t = []
    · rw [h0, text_chunks_nil] at hc
      simp at hc
    · have hl : 0 < t.length := List.length_pos.mpr h0
      rw [text_chunks_cons t C hC h0] at hc
      rcases List.mem_cons.mp hc with hc | hc
      · rw [hc, List.length_take]
        omega
      · exact ih (t.drop C) (by rw [List.length_drop]; omega) c hc

/-- A nonempty text no longer than the chunk size yields exactly one chunk:
the whole text. -/
theorem text_chunks_of_length_le (text : List Char) (C : Nat) (hC : 0 < C)
    (h0 : text ≠ []) (hle : text.length ≤ C) : text_chunks text C = [text] := by
  rw [text_chunks_cons text C hC h0, List.drop_eq_nil_of_le hle, text_chunks_nil,
    List.take_of_length_le hle]

/-- A backend that never raises summarizes every chunk in order: the loop
returns exactly the per-chunk summaries, in chunk order. -/
theorem summarize_chunks_ok (f : List Char → Nat → Nat → List Char)
    (chunks : List (List Char)) (max_length min_length : Nat) :
    summarize_chunks (fun c a b => Except.ok (f c a b)) chunks max_length
        min_length =
      Except.ok (chunks.map (fun c => f c max_length min_length)) := by
  induction chunks with
  | nil => rfl
  | cons a l ih =>
    unfold summarize_chunks at ih ⊢
    rw [List.mapM_cons, ih]
    rfl

/-- With a backend that never raises (modelled by a total summary function
`f`), `summarize_pdf` returns the per-chunk summaries of the extracted text,
joined with a single space, in chunk order. -/
theorem summarize_pdf_total_backend (f : List Char → Nat → Nat → List Char)
    (parser : PDFParser) (file_path : PDFPath) (max_length min_length : Nat) :
    summarize_pdf (some (fun c a b => Except.ok (f c a b))) parser file_path
        max_length min_length =
      List.intercalate [' ']
        ((text_chunks (read_pdf parser file_path) 1000).map
          (fun c => f c max_length min_length)) := by
  simp only [summarize_pdf, summarize_chunks_ok]

/-!
### Concrete collaborators used in counterexamples and witnesses
-/

/-- A parser for which every file fails to open, raising `boom`. -/
def parserBoom : PDFParser := fun _ => Except.error "boom".toList

/-- A parser yielding a single page with text `ab`. -/
def parserAB : PDFParser := fun _ => Except.ok ["ab".toList]

/-- A parser yielding a single page with text `hello`. -/
def parserHello : PDFParser := fun _ => Except.ok ["hello".toList]

/-- A parser yielding a single page whose extracted text is empty. -/
def parserEmptyPage : PDFParser := fun _ => Except.ok [[]]

/-- A backend returning the fixed summary `SUMMARY` for every chunk. -/
def summarizerConst : Summarizer := fun _ _ _ => Except.ok "SUMMARY".toList

/-- A backend returning every chunk unchanged as its summary. -/
def summarizerId : Summarizer := fun c _ _ => Except.ok c

/-- A backend whose inference always raises `inference failed`. -/
def summarizerRaise : Summarizer :=
  fun _ _ _ => Except.error "inference failed".toList

/-!
### The claims
-/

/-- Claim C1, counterexample: when extraction fails, `summarize_pdf` does NOT
propagate the error string unchanged.  `read_pdf` returns its error string
through the normal return value, `summarize_pdf` never checks for it, so the
error message is chunked and handed to the backend like ordinary document
text: with a backend that summarizes every chunk as `SUMMARY`, the result is
`SUMMARY`, not the extraction error string. -/
theorem claim_C1_counterexample :
    read_pdf parserBoom "doc.pdf" = "Error reading PDF file: boom".toList ∧
    summarize_pdf (some summarizerConst) parserBoom "doc.pdf" 200 50 =
      "SUMMARY".toList ∧
    summarize_pdf (some summarizerConst) parserBoom "doc.pdf" 200 50 ≠
      read_pdf parserBoom "doc.pdf" := by
  refine ⟨rfl, rfl, by decide⟩

/-- Claim C1, amended: if extraction fails, its error string is treated as
ordinary document text — it is chunked and passed to the summarization
backend, and `summarize_pdf` returns the backend's summaries of the error
message (so the error string is not, in general, returned unchanged, and the
backend is invoked on it). -/
theorem claim_C1 (f : List Char → Nat → Nat → List Char) (parser : PDFParser)
    (file_path : PDFPath) (max_length min_length : Nat) (e : List Char)
    (h : parser file_path = Except.error e) :
    summarize_pdf (some (fun c a b => Except.ok (f c a b))) parser file_path
        max_length min_length =
      List.intercalate [' ']
        ((text_chunks ("Error reading PDF file: ".toList ++ e) 1000).map
          (fun c => f c max_length min_length)) := by
  have hr : read_pdf parser file_path = "Error reading PDF file: ".toList ++ e := by
    unfold read_pdf
    rw [h]
  rw [summarize_pdf_total_backend, hr]

/-- Witness for `claim_C1` at the concrete failing parser `parserBoom`, with
the identity backend. -/
theorem claim_C1_witness :
    parserBoom "doc.pdf" = Except.error "boom".toList ∧
    summarize_pdf (some (fun c _ _ => Except.ok c)) parserBoom "doc.pdf"
        200 50 =
      List.intercalate [' ']
        ((text_chunks ("Error reading PDF file: ".toList ++ "boom".toList)
          1000).map (fun c => c)) :=
  ⟨rfl, claim_C1 (fun c _ _ => c) parserBoom "doc.pdf" 200 50 "boom".toList rfl⟩

/-- The summarization pipeline of `summarize_pdf` with the chunk size as an
explicit parameter, following the spec signature
`summarize(path, maxLength=200, minLength=50, chunkSize=1000)`.  It is
identical to `summarize_pdf` except that the slicing size is this parameter
rather than the hardcoded local constant `max_chunk_size = 1000`; it exists
only to compare the code against the spec's configurable-chunk-size reading. -/
def summarize_pdf_chunkSize (summarizer : Option Summarizer)
    (parser : PDFParser) (file_path : PDFPath) (max_length : Nat := 200)
    (min_length : Nat := 50) (chunk_size : Nat := 1000) : List Char :=
  match summarizer with
  | none => "Summarization model is not loaded.".toList
  | some s =>
    let text := read_pdf parser file_path
    let chunks := text_chunks text chunk_size
    match summarize_chunks s chunks max_length min_length with
    | .ok summaries => List.intercalate [' '] summaries
    | .error e => "Error summarizing PDF file: ".toList ++ e

/-- Claim C2, counterexample: the code's `summarize_pdf` has no chunk-size
parameter — `max_chunk_size = 1000` is a hardcoded local constant.  On a
two-character document with an identity backend, the spec's summarize with
`chunkSize = 1` would return `a b` (two chunks, joined by a space), while the
code returns `ab` (one chunk of the fixed size 1000): the code's behavior
cannot realize any chunk size other than 1000. -/
theorem claim_C2_counterexample :
    summarize_pdf (some summarizerId) parserAB "doc.pdf" 200 50 = "ab".toList ∧
    summarize_pdf_chunkSize (some summarizerId) parserAB "doc.pdf" 200 50 1 =
      "a b".toList ∧
    summarize_pdf (some summarizerId) parserAB "doc.pdf" 200 50 ≠
      summarize_pdf_chunkSize (some summarizerId) parserAB "doc.pdf" 200 50 1 := by
  refine ⟨rfl, rfl, by decide⟩

/-- Claim C2, amended: the summarize operation uses a fixed chunk size of 1000
characters (a hardcoded constant, not a configurable parameter), splitting the
extracted text into chunks of 1000 characters: it coincides with the
spec-signature pipeline exactly at chunk size 1000. -/
theorem claim_C2 (summarizer : Option Summarizer) (parser : PDFParser)
    (file_path : PDFPath) (max_length min_length : Nat) :
    summarize_pdf summarizer parser file_path max_length min_length =
      summarize_pdf_chunkSize summarizer parser file_path max_length
        min_length 1000 := by
  cases summarizer <;> rfl

/-- Claim C3: for every text of length `L` and chunk size `C > 0`, the
chunking step produces exactly `⌈L/C⌉ = (L + C - 1) / C` chunks, every chunk
except possibly the last has length exactly `C`, every chunk is nonempty of
length at most `C`, and concatenating the chunks in order with no separator
reproduces the original text (contiguous, non-overlapping, lossless). -/
theorem claim_C3 (text : List Char) (C : Nat) (hC : 0 < C) :
    (text_chunks text C).length = (text.length + C - 1) / C ∧
    (text_chunks text C).flatten = text ∧
    (∀ c ∈ (text_chunks text C).dropLast, c.length = C) ∧
    (∀ c ∈ text_chunks text C, 0 < c.length ∧ c.length ≤ C) :=
  ⟨text_chunks_length text C, text_chunks_flatten C hC text,
    text_chunks_dropLast_length C hC text, text_chunks_mem_length C hC text⟩

/-- Witness for `claim_C3` on the 12-character text `hello world!` with chunk
size 5 (chunks `hello`, ` worl`, `d!`). -/
theorem claim_C3_witness :
    0 < 5 ∧
    ((text_chunks "hello world!".toList 5).length =
        ("hello world!".toList.length + 5 - 1) / 5 ∧
      (text_chunks "hello world!".toList 5).flatten = "hello world!".toList ∧
      (∀ c ∈ (text_chunks "hello world!".toList 5).dropLast, c.length = 5) ∧
      (∀ c ∈ text_chunks "hello world!".toList 5, 0 < c.length ∧ c.length ≤ 5)) :=
  ⟨by decide, claim_C3 "hello world!".toList 5 (by decide)⟩

/-- Claim C4: with a null backend (`self._summarizer is None`, or the
attribute missing), `summarize_pdf` returns exactly
`Summarization model is not loaded.` — and since the equation holds for every
parser, text extraction is never consulted (the check precedes the `try`
block and the `read_pdf` call). -/
theorem claim_C4 (parser : PDFParser) (file_path : PDFPath)
    (max_length min_length : Nat) :
    summarize_pdf none parser file_path max_length min_length =
      "Summarization model is not loaded.".toList := rfl

/-- Claim C5: for every path whose file cannot be opened or parsed (the
parser raises with message `e`), `read_pdf` returns — rather than raises — a
string beginning with `Error reading PDF file`. -/
theorem claim_C5 (parser : PDFParser) (file_path : PDFPath) (e : List Char)
    (h : parser file_path = Except.error e) :
    "Error reading PDF file".toList <+: read_pdf parser file_path := by
  refine ⟨": ".toList ++ e, ?_⟩
  unfold read_pdf
  rw [h, ← List.append_assoc]
  congr 1

/-- Witness for `claim_C5` at the concrete failing parser `parserBoom`. -/
theorem claim_C5_witness :
    parserBoom "doc.pdf" = Except.error "boom".toList ∧
    "Error reading PDF file".toList <+: read_pdf parserBoom "doc.pdf" :=
  ⟨rfl, claim_C5 parserBoom "doc.pdf" "boom".toList rfl⟩

/-- Claim C6: with a backend that produces a summary for every chunk
(modelled by the total function `f`), the final summary equals the per-chunk
backend summaries joined with a single space, in the original chunk order —
the summarization step introduces no reordering. -/
theorem claim_C6 (f : List Char → Nat → Nat → List Char) (parser : PDFParser)
    (file_path : PDFPath) (max_length min_length : Nat) :
    summarize_pdf (some (fun c a b => Except.ok (f c a b))) parser file_path
        max_length min_length =
      List.intercalate [' ']
        ((text_chunks (read_pdf parser file_path) 1000).map
          (fun c => f c max_length min_length)) :=
  summarize_pdf_total_backend f parser file_path max_length min_length

/-- Claim C7, counterexample: `_run` does not return `read_pdf` for *every*
path.  The empty path is falsy in Python, so `_run` with `file_path = ''` and
no `__arg1` keyword returns the fixed `Error: No file path provided.` message,
while `read_pdf` on the same path returns whatever the parser extracts
(`hello` here). -/
theorem claim_C7_counterexample :
    _run parserHello (some "") none = "Error: No file path provided.".toList ∧
    read_pdf parserHello "" = "hello".toList ∧
    _run parserHello (some "") none ≠ read_pdf parserHello "" := by
  refine ⟨rfl, rfl, by decide⟩

/-- Claim C7, amended: for every non-empty path, `_run` returns exactly
`read_pdf` of that path (for an empty or missing path it returns the fixed
`Error: No file path provided.` message instead); and for every path, `_arun`
returns exactly `summarize_pdf` of that path with the default
`max_length = 200`, `min_length = 50`. -/
theorem claim_C7 (parser : PDFParser) (summarizer : Option Summarizer)
    (p : String) (arg1 : Option String) :
    (p ≠ "" → _run parser (some p) arg1 = read_pdf parser p) ∧
    _arun summarizer parser p = summarize_pdf summarizer parser p 200 50 := by
  constructor
  · intro hp
    have htr : strTruthy (some p) = true := by simp [strTruthy, hp]
    simp [_run, htr]
  · rfl

/-- Witness for `claim_C7` at the concrete path `doc.pdf`. -/
theorem claim_C7_witness :
    ("doc.pdf" : String) ≠ "" ∧
    ((("doc.pdf" : String) ≠ "" →
        _run parserHello (some "doc.pdf") none = read_pdf parserHello "doc.pdf") ∧
      _arun (some summarizerId) parserHello "doc.pdf" =
        summarize_pdf (some summarizerId) parserHello "doc.pdf" 200 50) :=
  ⟨by decide, claim_C7 parserHello (some summarizerId) "doc.pdf" none⟩

/-- Claim C8, counterexample: a document whose extracted text is empty is
shorter than the chunk size, yet the chunking step produces zero chunks (not
one), and the final summary is the empty string — not the backend's summary
of the whole text (the backend here returns `SUMMARY` on every input,
including the empty text). -/
theorem claim_C8_counterexample :
    (read_pdf parserEmptyPage "doc.pdf").length < 1000 ∧
    text_chunks (read_pdf parserEmptyPage "doc.pdf") 1000 = [] ∧
    summarize_pdf (some summarizerConst) parserEmptyPage "doc.pdf" 200 50 = [] ∧
    summarizerConst (read_pdf parserEmptyPage "doc.pdf") 200 50 =
      Except.ok "SUMMARY".toList ∧
    summarize_pdf (some summarizerConst) parserEmptyPage "doc.pdf" 200 50 ≠
      "SUMMARY".toList := by
  refine ⟨by decide, rfl, rfl, rfl, by decide⟩

/-- Claim C8, amended: for every document whose extracted text is *nonempty*
and shorter than the chunk size 1000, the chunking step produces exactly one
chunk — the whole text — and the final summary equals the backend's summary
of the whole text. -/
theorem claim_C8 (f : List Char → Nat → Nat → List Char) (parser : PDFParser)
    (file_path : PDFPath) (max_length min_length : Nat)
    (h0 : read_pdf parser file_path ≠ [])
    (h1 : (read_pdf parser file_path).length < 1000) :
    text_chunks (read_pdf parser file_path) 1000 = [read_pdf parser file_path] ∧
    summarize_pdf (some (fun c a b => Except.ok (f c a b))) parser file_path
        max_length min_length =
      f (read_pdf parser file_path) max_length min_length := by
  have hone := text_chunks_of_length_le (read_pdf parser file_path) 1000
    (by omega) h0 (le_of_lt h1)
  refine ⟨hone, ?_⟩
  rw [summarize_pdf_total_backend, hone]
  simp [List.intercalate]

/-- Witness for `claim_C8`: the parser `parserHello` extracts the 5-character
text `hello`, and with the identity backend the summary is `hello` itself. -/
theorem claim_C8_witness :
    read_pdf parserHello "doc.pdf" ≠ [] ∧
    (read_pdf parserHello "doc.pdf").length < 1000 ∧
    (text_chunks (read_pdf parserHello "doc.pdf") 1000 =
        [read_pdf parserHello "doc.pdf"] ∧
      summarize_pdf (some (fun c _ _ => Except.ok c)) parserHello "doc.pdf"
          200 50 =
        read_pdf parserHello "doc.pdf") :=
  ⟨by decide, by decide,
    claim_C8 (fun c _ _ => c) parserHello "doc.pdf" 200 50 (by decide) (by decide)⟩

/-- Claim C9: `summarize_pdf` is a total function into plain strings (the
embedding's return type is the normal success channel — nothing escapes): a
raised backend exception with message `e` is caught and converted into the
human-readable string `Error summarizing PDF file: ` + `e` (first conjunct),
and every result is one of the three normally-returned strings: the
model-not-loaded message, a space-joined list of per-chunk summaries, or an
error-summarizing message (second conjunct).  Extraction exceptions are
already converted inside `read_pdf` and cannot escape it. -/
theorem claim_C9 (summarizer : Option Summarizer) (parser : PDFParser)
    (file_path : PDFPath) (max_length min_length : Nat) :
    (∀ s e, summarizer = some s →
        summarize_chunks s (text_chunks (read_pdf parser file_path) 1000)
            max_length min_length = Except.error e →
        summarize_pdf summarizer parser file_path max_length min_length =
          "Error summarizing PDF file: ".toList ++ e) ∧
    (summarize_pdf summarizer parser file_path max_length min_length =
        "Summarization model is not loaded.".toList ∨
      (∃ summaries, summarize_pdf summarizer parser file_path max_length
          min_length = List.intercalate [' '] summaries) ∨
      (∃ e, summarize_pdf summarizer parser file_path max_length min_length =
        "Error summarizing PDF file: ".toList ++ e)) := by
  cases summarizer with
  | none =>
    constructor
    · intro s e hs he
      cases hs
    · exact Or.inl rfl
  | some s =>
    constructor
    · intro s' e hs he
      cases hs
      simp only [summarize_pdf, he]
    · cases he : summarize_chunks s (text_chunks (read_pdf parser file_path)
          1000) max_length min_length with
      | ok summaries =>
        exact Or.inr (Or.inl ⟨summaries, by simp only [summarize_pdf, he]⟩)
      | error e =>
        exact Or.inr (Or.inr ⟨e, by simp only [summarize_pdf, he]⟩)

/-- Witness for `claim_C9` at a backend whose inference always raises
`inference failed`: the exception is converted to the error-summarizing
string. -/
theorem claim_C9_witness :
    summarize_chunks summarizerRaise
        (text_chunks (read_pdf parserAB "doc.pdf") 1000) 200 50 =
      Except.error "inference failed".toList ∧
    summarize_pdf (some summarizerRaise) parserAB "doc.pdf" 200 50 =
      "Error summarizing PDF file: ".toList ++ "inference failed".toList :=
  ⟨rfl, (claim_C9 (some summarizerRaise) parserAB "doc.pdf" 200 50).1
    summarizerRaise "inference failed".toList rfl rfl⟩

/-- Claim C10: if the extracted text is empty, the chunking comprehension
ranges over `range(0, 0, 1000) = []`, so `summarize_pdf` produces zero
chunks and returns the empty string `' '.join([]) = ''` — and since the
equation holds for every backend `s`, the backend is never invoked. -/
theorem claim_C10 (s : Summarizer) (parser : PDFParser) (file_path : PDFPath)
    (max_length min_length : Nat) (h : read_pdf parser file_path = []) :
    text_chunks (read_pdf parser file_path) 1000 = [] ∧
    summarize_pdf (some s) parser file_path max_length min_length = [] := by
  constructor
  · rw [h, text_chunks_nil]
  · simp only [summarize_pdf, h, text_chunks_nil]
    rfl

/-- Witness for `claim_C10` at a parser yielding one page of empty text. -/
theorem claim_C10_witness :
    read_pdf parserEmptyPage "doc.pdf" = [] ∧
    (text_chunks (read_pdf parserEmptyPage "doc.pdf") 1000 = [] ∧
      summarize_pdf (some summarizerConst) parserEmptyPage "doc.pdf" 200 50 =
        []) :=
  ⟨rfl, claim_C10 summarizerConst parserEmptyPage "doc.pdf" 200 50 rfl⟩
